import Mathlib

/-!
Verification of the per-tenant session registry and event fan-out of
`wa-qr-connector` (`src/index.js`). The JavaScript source is embedded
shallowly: the mutable per-tenant `sessions` Map becomes an association
list threaded through the operations, engine callbacks become a step
function on the session record, and the opaque automation engine is an
oracle parameter. JavaScript truthiness of nullable strings (null,
undefined and the empty string are all falsy) is made explicit through
`truthyStr`.
-/

namespace WaQr

/-- Connection state of a tenant session (`s.status` in `index.js`,
stored as the strings "OFFLINE" / "RECONNECTING" / "ONLINE"). -/
inductive Status where
  | OFFLINE
  | RECONNECTING
  | ONLINE
deriving DecidableEq, Repr

/-- JavaScript truthiness for a nullable string: `null`/`undefined`
(here `none`) and the empty string are falsy. -/
def truthyStr : Option String → Option String
  | some s => if s = "" then none else some s
  | none => none

/-- Embeds `parseNumberFromWid` (index.js:20-24):
`i = wid.indexOf("@"); return i > 0 ? wid.slice(0, i) : wid`. -/
def parseNumberFromWid (wid : String) : String :=
  match wid.toList.findIdx? (· == '@') with
  | some i => if 0 < i then String.mk (wid.toList.take i) else wid
  | none => wid

/-- A contact object as returned by the engine's `getContactById`;
each display-name field is nullable, `id` is the serialized wid
(`contact?.id?._serialized || contact?.id`). -/
structure Contact where
  name : Option String
  pushname : Option String
  shortName : Option String
  verifiedName : Option String
  id : Option String
deriving DecidableEq, Repr

/-- Embeds `bestContactName` (index.js:26-36): the `||` chain
`contact?.name || contact?.pushname || contact?.shortName ||
contact?.verifiedName || parseNumberFromWid(...) || "Contato"`,
where `contact` itself may be null. -/
def bestContactName (contact : Option Contact) : String :=
  match truthyStr (contact.bind Contact.name) with
  | some n => n
  | none =>
    match truthyStr (contact.bind Contact.pushname) with
    | some n => n
    | none =>
      match truthyStr (contact.bind Contact.shortName) with
      | some n => n
      | none =>
        match truthyStr (contact.bind Contact.verifiedName) with
        | some n => n
        | none =>
          let widStr := (truthyStr (contact.bind Contact.id)).getD ""
          let n := parseNumberFromWid widStr
          if n = "" then "Contato" else n

/-- The engine's `getContactById`, as an oracle: for a wid it either
resolves (possibly with a null contact) or rejects. -/
def Engine : Type := String → Except Unit (Option Contact)

/-- The per-session name cache `nameCache : Map<wid, name>`, as an
association list (a JS Map holds at most one entry per key; entries
are only added on a `has` miss, so cons never duplicates a key). -/
abbrev NameCache : Type := List (String × String)

/-- Result of one `resolveName` call: the returned value (`null` when
the wid is falsy), the cache after the call, and how many
`getContactById` queries were issued. -/
structure ResolveOut where
  result : Option String
  cache : NameCache
  queries : Nat
deriving DecidableEq

/-- Embeds `resolveName` (index.js:38-51): falsy wid returns null;
cache hit returns the cached name; otherwise one engine query — on
success cache `bestContactName`, on rejection cache the
`parseNumberFromWid` fallback. -/
def resolveName (engine : Engine) (cache : NameCache) (wid : String) : ResolveOut :=
  if wid = "" then ⟨none, cache, 0⟩
  else
    match List.lookup wid cache with
    | some n => ⟨some n, cache, 0⟩
    | none =>
      match engine wid with
      | .ok contact =>
        let name := bestContactName contact
        ⟨some name, (wid, name) :: cache, 1⟩
      | .error _ =>
        let fallback := parseNumberFromWid wid
        ⟨some fallback, (wid, fallback) :: cache, 1⟩

/-- One tenant session record (index.js:141):
`{ client, status: "OFFLINE", listeners: new Set(), qr: null, nameCache: new Map() }`.
The opaque engine client handle is not part of the state; its observable
calls (`initialize`, `destroy`, `getContactById`) are counted or passed
as oracles by the operations below. Listeners (a JS `Set` of response
handles) are modelled as a duplicate-free list of subscriber ids. -/
structure Session where
  status : Status
  qr : Option String
  listeners : List Nat
  nameCache : NameCache
deriving DecidableEq, Repr

/-- The module-level `sessions` Map from tenant id to session
(index.js:16), as an association list with at most one entry per key. -/
abbrev Registry : Type := List (String × Session)

/-- The session record built by `getOrCreateSession` for a fresh tenant
(index.js:141). -/
def freshSession : Session :=
  { status := .OFFLINE, qr := none, listeners := [], nameCache := [] }

/-- Observable outcome of `getOrCreateSession`: the returned session,
the registry afterwards, whether a new session record was constructed,
and how many `client.initialize()` calls were started. -/
structure CreateOut where
  session : Session
  registry : Registry
  created : Bool
  initCalls : Nat
deriving DecidableEq

/-- Embeds `getOrCreateSession` (index.js:129-194): return the existing
session if the tenant is in the map; otherwise build a fresh client and
session record, insert it, register the event handlers (embedded
separately as `handleEvent`), and start one asynchronous
`client.initialize()`. -/
def getOrCreateSession (reg : Registry) (tenant : String) : CreateOut :=
  match List.lookup tenant reg with
  | some s => ⟨s, reg, false, 0⟩
  | none => ⟨freshSession, (tenant, freshSession) :: reg, true, 1⟩

/-- An error thrown to the Express error middleware: the optional
`err.status` property and `err.message`. -/
structure HttpError where
  status : Option Nat
  message : String
deriving DecidableEq, Repr

/-- The error thrown by `requireOnline` (index.js:199-200):
message "Sessão não está ONLINE para este tenant", `err.status = 400`. -/
def sessionNotReadyError : HttpError :=
  { status := some 400, message := "Sessão não está ONLINE para este tenant" }

/-- Embeds the error middleware (index.js:539-542):
`const code = err.status || 500` (a falsy status, absent or 0, maps
to 500). -/
def errorCode (e : HttpError) : Nat :=
  match e.status with
  | some n => if n = 0 then 500 else n
  | none => 500

deriving instance DecidableEq for Except

/-- Observable outcome of `requireOnline`: the thrown error or the
returned session, plus the registry and initialize calls from the
embedded `getOrCreateSession`. -/
structure RequireOut where
  result : Except HttpError Session
  registry : Registry
  initCalls : Nat
deriving DecidableEq

/-- Embeds `requireOnline` (index.js:196-204): get-or-create the
tenant's session, then throw the not-ready error unless
`s.status === "ONLINE"` (the `!s ||` disjunct is vacuous since
`getOrCreateSession` always returns a session). -/
def requireOnline (reg : Registry) (tenant : String) : RequireOut :=
  let o := getOrCreateSession reg tenant
  { result :=
      if o.session.status = Status.ONLINE then .ok o.session
      else .error sessionNotReadyError
    registry := o.registry
    initCalls := o.initCalls }

/-- The JSON body answered by `POST /sessions/:tenant/stop`:
`{ ok: true, tenant }`. -/
structure StopResponse where
  ok : Bool
  tenant : String
deriving DecidableEq

/-- Observable outcome of the stop route: the registry afterwards, the
response, and how many `client.destroy()` calls were made. -/
structure StopOut where
  registry : Registry
  response : StopResponse
  destroyCalls : Nat
deriving DecidableEq

/-- Embeds `POST /sessions/:tenant/stop` (index.js:234-244): look the
tenant up with `sessions.get` (no creation); when present, call
`client.destroy()` inside `try … catch {}` — its outcome
`destroyResult` is swallowed — and `sessions.delete(tenant)` (removal
of the key from the Map, here a key filter); always answer
`{ ok: true, tenant }`. -/
def stop (reg : Registry) (tenant : String) (destroyResult : Except Unit Unit) : StopOut :=
  match List.lookup tenant reg with
  | none => ⟨reg, ⟨true, tenant⟩, 0⟩
  | some _ => ⟨reg.filter (fun p => p.1 ≠ tenant), ⟨true, tenant⟩, 1⟩

/-- Embeds `GET /sessions` (index.js:246-252): the snapshot
`[...sessions.entries()].map(([tenant, s]) => ({ tenant, status: s.status }))`. -/
def listSessions (reg : Registry) : List (String × Status) :=
  reg.map (fun p => (p.1, p.2.status))

/-- A message id as it appears on engine objects:
`msg.id?._serialized ?? msg.id` — either an object carrying a
`_serialized` string or already a raw string. -/
inductive JsId where
  | obj (serialized : String)
  | raw (s : String)
deriving DecidableEq, Repr

/-- The normalization `x?._serialized ?? x` applied throughout
`index.js`. -/
def JsId.norm : JsId → String
  | .obj s => s
  | .raw s => s

/-- The fields of an engine message object read by `baseMessageDTO`
(index.js:61-79). `quotedMsgId` is `msg._data?.quotedMsgId`. -/
structure Msg where
  id : JsId
  from_ : String
  to_ : String
  fromMe : Bool
  body : String
  type : String
  hasMedia : Bool
  mimetype : Option String
  filename : Option String
  size : Option Nat
  ack : Option Nat
  timestamp : Option Nat
  hasQuotedMsg : Bool
  quotedMsgId : Option String
  author : Option String
deriving DecidableEq, Repr

/-- The message DTO built by `baseMessageDTO` and optionally enriched
by `enrichMessageDTO`. `authorName = none` means the field is absent
(the base DTO); `some v` means `enrichMessageDTO` set it to `v`
(possibly to JS `null`, i.e. `some none`). -/
structure MessageDTO where
  id : String
  chatId : String
  from_ : String
  to_ : String
  fromMe : Bool
  body : String
  type : String
  hasMedia : Bool
  mimetype : Option String
  filename : Option String
  size : Option Nat
  ack : Option Nat
  timestamp : Option Nat
  quotedMsgId : Option String
  author : Option String
  authorName : Option (Option String)
deriving DecidableEq, Repr

/-- Embeds `baseMessageDTO` (index.js:61-79). -/
def baseMessageDTO (msg : Msg) : MessageDTO :=
  { id := msg.id.norm
    chatId := if msg.fromMe then msg.to_ else msg.from_
    from_ := msg.from_
    to_ := msg.to_
    fromMe := msg.fromMe
    body := msg.body
    type := msg.type
    hasMedia := msg.hasMedia
    mimetype := msg.mimetype
    filename := msg.filename
    size := msg.size
    ack := msg.ack
    timestamp := msg.timestamp
    quotedMsgId := if msg.hasQuotedMsg then msg.quotedMsgId else none
    author := msg.author
    authorName := none }

/-- Observable outcome of `enrichMessageDTO`: the DTO, the name cache
afterwards, and the engine queries issued by `resolveName`. -/
structure EnrichOut where
  dto : MessageDTO
  cache : NameCache
  queries : Nat
deriving DecidableEq

/-- Embeds `enrichMessageDTO` (index.js:81-90): build the base DTO;
when `dto.author` is truthy set `authorName` from `resolveName`,
otherwise set it to null. -/
def enrichMessageDTO (engine : Engine) (msg : Msg) (cache : NameCache) : EnrichOut :=
  let dto := baseMessageDTO msg
  match truthyStr dto.author with
  | some a =>
    let r := resolveName engine cache a
    ⟨{ dto with authorName := some r.result }, r.cache, r.queries⟩
  | none => ⟨{ dto with authorName := some none }, cache, 0⟩

/-- One SSE payload written by `sseBroadcast` or by the stream route:
the JSON objects of type "status", "qr", "ready" (with ok true),
"state", "message" and "ack". -/
inductive Frame where
  | status (st : Status)
  | qr (token : String)
  | ready
  | state (engineState : String)
  | message (dto : MessageDTO)
  | ack (messageId : String) (ackLevel : Nat)
deriving DecidableEq, Repr

/-- Whether a frame is a message frame. -/
def Frame.isMessage : Frame → Bool
  | .message _ => true
  | _ => false

/-- Whether a frame is a status frame. -/
def Frame.isStatus : Frame → Bool
  | .status _ => true
  | _ => false

/-- Whether a frame is a qr frame. -/
def Frame.isQr : Frame → Bool
  | .qr _ => true
  | _ => false

/-- Outcome of the one `client.initialize()` promise started by a
handler: it either fulfils or rejects. -/
inductive InitResult where
  | success
  | failure
deriving DecidableEq, Repr

/-- A connection-level engine event delivered to the handlers
registered in `getOrCreateSession` (index.js:150-174, 192).
`disconnected` carries the outcome of the single re-initialization
attempt the handler awaits; `initDone` is the settling of the initial
`client.initialize()` started at creation (only its rejection is
observable, through `.catch`). -/
inductive SEvent where
  | qr (token : String)
  | ready
  | changeState (engineState : String)
  | disconnected (reinit : InitResult)
  | authFailure
  | initDone (r : InitResult)
deriving DecidableEq, Repr

/-- Result of running one registered handler: the session afterwards,
the frames broadcast (in order) to the tenant's listeners, and the
number of `client.initialize()` calls the handler made. -/
structure StepOut where
  session : Session
  frames : List Frame
  initCalls : Nat
deriving DecidableEq

/-- Embeds the connection-event handlers registered in
`getOrCreateSession` (index.js:144-174, 192). `setStatus` both updates
`s.status` and broadcasts a status frame, so every status write
appears in `frames`:
* "qr" (150-154): store the token, `setStatus("RECONNECTING")`, then
  broadcast the qr frame;
* "ready" (156-159): `setStatus("ONLINE")`, broadcast the ready frame;
* "change_state" (161-163): broadcast the engine state, no status change;
* "disconnected" (165-172): `setStatus("RECONNECTING")`, await one
  `client.initialize()`; on rejection `setStatus("OFFLINE")`;
* "auth_failure" (174): `setStatus("OFFLINE")`;
* the initial `initialize().catch(() => setStatus("OFFLINE"))` (192). -/
def handleEvent (s : Session) : SEvent → StepOut
  | .qr token =>
    ⟨{ s with qr := some token, status := .RECONNECTING },
      [Frame.status .RECONNECTING, Frame.qr token], 0⟩
  | .ready =>
    ⟨{ s with status := .ONLINE }, [Frame.status .ONLINE, Frame.ready], 0⟩
  | .changeState st => ⟨s, [Frame.state st], 0⟩
  | .disconnected .success =>
    ⟨{ s with status := .RECONNECTING }, [Frame.status .RECONNECTING], 1⟩
  | .disconnected .failure =>
    ⟨{ s with status := .OFFLINE },
      [Frame.status .RECONNECTING, Frame.status .OFFLINE], 1⟩
  | .authFailure => ⟨{ s with status := .OFFLINE }, [Frame.status .OFFLINE], 0⟩
  | .initDone .success => ⟨s, [], 0⟩
  | .initDone .failure => ⟨{ s with status := .OFFLINE }, [Frame.status .OFFLINE], 0⟩

/-- Embeds the "message" handler (index.js:177-185): the enrichment is
attempted inside `try … catch`; on success the enriched DTO is
broadcast, on a thrown error the unenriched `baseMessageDTO(msg)` is
broadcast instead — the event is never dropped. -/
def clientMessageHandler (enrichResult : Except Unit MessageDTO) (msg : Msg) : Frame :=
  match enrichResult with
  | .ok dto => Frame.message dto
  | .error _ => Frame.message (baseMessageDTO msg)

/-- Embeds `sseBroadcast`'s delivery loop (index.js:53-59) iterated
over a sequence of broadcasts: each frame in order is written to every
current listener. -/
def fanOut (listeners : List Nat) (frames : List Frame) : List (Nat × Frame) :=
  frames.flatMap (fun f => listeners.map (fun r => (r, f)))

/-- The frames a given subscriber receives from a write sequence. -/
def seenBy (sub : Nat) (writes : List (Nat × Frame)) : List Frame :=
  (writes.filter (fun p => p.1 == sub)).map Prod.snd

/-- Replace a tenant's session record in the registry (the JS handlers
mutate the record held by the Map in place). -/
def setSession (reg : Registry) (tenant : String) (s : Session) : Registry :=
  reg.map (fun p => if p.1 = tenant then (p.1, s) else p)

/-- Observable outcome of `GET /sessions/:tenant/stream`. -/
structure StreamOut where
  registry : Registry
  initialFrames : List Frame
  initCalls : Nat
deriving DecidableEq

/-- Embeds `GET /sessions/:tenant/stream` (index.js:214-232):
get-or-create the session, add the response to `s.listeners`, write a
status frame with the current status, then a qr frame only when `s.qr`
is truthy (`if (s.qr) …`). -/
def streamConnect (reg : Registry) (tenant : String) (sub : Nat) : StreamOut :=
  let o := getOrCreateSession reg tenant
  let s := o.session
  let withSub := { s with listeners := sub :: s.listeners }
  { registry := setSession o.registry tenant withSub
    initialFrames :=
      Frame.status s.status ::
        (match truthyStr s.qr with
         | some q => [Frame.qr q]
         | none => [])
    initCalls := o.initCalls }

/-! ## Registry invariants and helper lemmas -/

/-- Well-formedness of the registry embedding of a JS Map: at most one
entry per tenant key. -/
def registryWF (reg : Registry) : Prop := (reg.map Prod.fst).Nodup

/-- A failed lookup means the key heads no pair of the list. -/
theorem key_not_mem_of_lookup_none (reg : Registry) (t : String)
    (h : List.lookup t reg = none) : t ∉ reg.map Prod.fst := by
  induction reg with
  | nil => simp
  | cons p rest ih =>
    obtain ⟨k, v⟩ := p
    rw [List.lookup_cons] at h
    by_cases hk : (t == k) = true
    · simp [hk] at h
    · simp only [hk] at h
      simp only [List.map_cons, List.mem_cons]
      rintro (he | hm)
      · exact hk (by simp [he])
      · exact ih h hm

/-! ## Claim theorems -/

/-- C1: `requireOnline` returns the tenant's session exactly when its
connection state is ONLINE; in every other state (OFFLINE,
RECONNECTING) it fails with the "session not ready" error, whose
client-error classification maps to HTTP 400 in the error
middleware. -/
theorem requireOnline_ok_iff_online (reg : Registry) (t : String) :
    ((getOrCreateSession reg t).session.status = Status.ONLINE →
      (requireOnline reg t).result = Except.ok (getOrCreateSession reg t).session) ∧
    ((getOrCreateSession reg t).session.status = Status.OFFLINE →
      (requireOnline reg t).result = Except.error sessionNotReadyError) ∧
    ((getOrCreateSession reg t).session.status = Status.RECONNECTING →
      (requireOnline reg t).result = Except.error sessionNotReadyError) ∧
    (∀ s, (requireOnline reg t).result = Except.ok s ↔
      ((getOrCreateSession reg t).session.status = Status.ONLINE ∧
        s = (getOrCreateSession reg t).session)) ∧
    errorCode sessionNotReadyError = 400 := by
  have hres : (requireOnline reg t).result =
      if (getOrCreateSession reg t).session.status = Status.ONLINE
      then Except.ok (getOrCreateSession reg t).session
      else Except.error sessionNotReadyError := rfl
  refine ⟨fun h => by rw [hres, if_pos h],
    fun h => by rw [hres, if_neg (by rw [h]; decide)],
    fun h => by rw [hres, if_neg (by rw [h]; decide)],
    fun s => ?_, by decide⟩
  rw [hres]
  by_cases h : (getOrCreateSession reg t).session.status = Status.ONLINE
  · rw [if_pos h]
    simp [h]
    exact eq_comm
  · rw [if_neg h]
    simp [h]

/-- Witness for C1: a registry holding an ONLINE session for tenant
"t" passes the gate, and a fresh (OFFLINE) tenant is rejected with the
not-ready error. -/
theorem requireOnline_ok_iff_online_witness :
    (requireOnline [("t", { freshSession with status := Status.ONLINE })] "t").result
        = Except.ok { freshSession with status := Status.ONLINE } ∧
    (requireOnline [] "t").result = Except.error sessionNotReadyError := by
  constructor
  · exact (requireOnline_ok_iff_online
      [("t", { freshSession with status := Status.ONLINE })] "t").1 (by decide)
  · exact (requireOnline_ok_iff_online [] "t").2.1 (by decide)

/-- C9 (implicit): `requireOnline` on a tenant with no existing
session first lazily creates the session — state OFFLINE, one
`client.initialize()` started — inserts it into the registry and only
then throws the not-ready error; after any `requireOnline` call the
registry contains a session for the tenant. -/
theorem requireOnline_lazily_creates (reg : Registry) (t : String) :
    (List.lookup t reg = none →
      (requireOnline reg t).registry = (t, freshSession) :: reg ∧
      freshSession.status = Status.OFFLINE ∧
      (requireOnline reg t).initCalls = 1 ∧
      (requireOnline reg t).result = Except.error sessionNotReadyError) ∧
    (List.lookup t (requireOnline reg t).registry).isSome = true := by
  cases h : List.lookup t reg with
  | none =>
    refine ⟨fun _ => ?_, ?_⟩ <;>
      simp [requireOnline, getOrCreateSession, h, freshSession, List.lookup_cons]
  | some s =>
    refine ⟨fun hn => by simp at hn, ?_⟩
    simp [requireOnline, getOrCreateSession, h]

/-- Witness for C9: on the empty registry, `requireOnline "t"` inserts
a fresh OFFLINE session for "t", starts one initialization, and
throws the not-ready error. -/
theorem requireOnline_lazily_creates_witness :
    (requireOnline [] "t").registry = [("t", freshSession)] ∧
    freshSession.status = Status.OFFLINE ∧
    (requireOnline [] "t").initCalls = 1 ∧
    (requireOnline [] "t").result = Except.error sessionNotReadyError ∧
    (List.lookup "t" (requireOnline [] "t").registry).isSome = true := by
  have h := requireOnline_lazily_creates [] "t"
  have h1 := h.1 (by decide)
  exact ⟨h1.1, h1.2.1, h1.2.2.1, h1.2.2.2, h.2⟩

/-- Looking up a key in a list filtered on "key differs" finds
nothing (the effect of `sessions.delete`). -/
theorem lookup_filter_ne (reg : Registry) (t : String) :
    List.lookup t (reg.filter fun p => p.1 ≠ t) = none := by
  induction reg with
  | nil => rfl
  | cons p rest ih =>
    obtain ⟨k, v⟩ := p
    rw [List.filter_cons]
    by_cases hk : k = t
    · rw [if_neg (by simp [hk])]
      exact ih
    · rw [if_pos (by simp [hk]), List.lookup_cons]
      have hbeq : (t == k) = false := by
        simpa using fun hta => hk hta.symm
      simp only [hbeq]
      exact ih

/-- C5: `getOrCreateSession` is idempotent per tenant: a first call on
an unseen tenant creates exactly one session (state OFFLINE) and
inserts it; every later call returns that same session without
creating another; and the registry keeps at most one session per
tenant (duplicate-free keys are preserved). -/
theorem getOrCreateSession_idempotent (reg : Registry) (t : String) :
    (List.lookup t reg = none →
      (getOrCreateSession reg t).created = true ∧
      (getOrCreateSession reg t).session = freshSession ∧
      freshSession.status = Status.OFFLINE ∧
      (getOrCreateSession reg t).registry = (t, freshSession) :: reg) ∧
    (∀ s, List.lookup t reg = some s →
      getOrCreateSession reg t = ⟨s, reg, false, 0⟩) ∧
    (getOrCreateSession (getOrCreateSession reg t).registry t =
      ⟨(getOrCreateSession reg t).session, (getOrCreateSession reg t).registry, false, 0⟩) ∧
    (List.lookup t (getOrCreateSession reg t).registry =
      some (getOrCreateSession reg t).session) ∧
    (registryWF reg → registryWF (getOrCreateSession reg t).registry) := by
  cases h : List.lookup t reg with
  | none =>
    refine ⟨fun _ => by simp [getOrCreateSession, h, freshSession],
      fun s hs => by simp at hs, ?_, ?_, fun hwf => ?_⟩
    · simp [getOrCreateSession, h, List.lookup_cons]
    · simp [getOrCreateSession, h, List.lookup_cons]
    · have hnm := key_not_mem_of_lookup_none reg t h
      simp only [getOrCreateSession, h, registryWF, List.map_cons, List.nodup_cons]
      exact ⟨hnm, hwf⟩
  | some s =>
    refine ⟨fun hn => by simp at hn, fun s2 hs => ?_, ?_, ?_, fun hwf => ?_⟩
    · obtain rfl : s = s2 := by simpa using hs
      simp [getOrCreateSession, h]
    · simp [getOrCreateSession, h]
    · simp [getOrCreateSession, h]
    · simpa [getOrCreateSession, h] using hwf

/-- Witness for C5: on the empty registry, creating tenant "t" yields
a fresh OFFLINE session, the second call returns the same session
without creating, and the keys stay duplicate-free. -/
theorem getOrCreateSession_idempotent_witness :
    (getOrCreateSession [] "t").created = true ∧
    (getOrCreateSession [] "t").session = freshSession ∧
    (getOrCreateSession [] "t").registry = [("t", freshSession)] ∧
    getOrCreateSession [("t", freshSession)] "t" =
      ⟨freshSession, [("t", freshSession)], false, 0⟩ ∧
    registryWF (getOrCreateSession [] "t").registry := by
  have h := getOrCreateSession_idempotent [] "t"
  have h1 := h.1 (by decide)
  exact ⟨h1.1, h1.2.1, h1.2.2.2, h.2.2.1, h.2.2.2.2 (by simp [registryWF])⟩

/-- C7: `stop` is idempotent: stopping an unknown tenant is a no-op
success (no destroy call, registry unchanged); stopping a known tenant
makes one best-effort `client.destroy()` call whose outcome never
changes the response or the registry, removes the session from the
map, and the tenant no longer appears in `listSessions`. -/
theorem stop_idempotent_spec (reg : Registry) (t : String)
    (r r2 : Except Unit Unit) :
    (stop reg t r).response = ⟨true, t⟩ ∧
    stop reg t r = stop reg t r2 ∧
    (List.lookup t reg = none →
      (stop reg t r).registry = reg ∧ (stop reg t r).destroyCalls = 0) ∧
    (List.lookup t reg ≠ none → (stop reg t r).destroyCalls = 1) ∧
    List.lookup t (stop reg t r).registry = none ∧
    (∀ st, (t, st) ∉ listSessions (stop reg t r).registry) := by
  cases h : List.lookup t reg with
  | none =>
    refine ⟨by simp [stop, h], rfl, fun _ => by simp [stop, h],
      fun hn => absurd rfl hn, by simp [stop, h], fun st hmem => ?_⟩
    have hkey : t ∈ reg.map Prod.fst := by
      simp only [stop, h, listSessions, List.mem_map] at hmem
      obtain ⟨p, hp, heq⟩ := hmem
      exact List.mem_map.mpr ⟨p, hp, congrArg Prod.fst heq⟩
    exact key_not_mem_of_lookup_none reg t h hkey
  | some s =>
    refine ⟨by simp [stop, h], rfl, fun hn => by simp at hn,
      fun _ => by simp [stop, h],
      by simp only [stop, h]; exact lookup_filter_ne reg t,
      fun st hmem => ?_⟩
    simp only [stop, h, listSessions, List.mem_map, List.mem_filter] at hmem
    obtain ⟨p, ⟨hp, hne⟩, heq⟩ := hmem
    have : p.1 = t := congrArg Prod.fst heq
    simp [this] at hne

/-- Witness for C7: stopping unknown tenant "t" on the empty registry
is a no-op success; stopping it on a registry holding it destroys once
and removes it from the listing, with the destroy outcome ignored. -/
theorem stop_idempotent_spec_witness :
    (stop [] "t" (Except.ok ())).response = ⟨true, "t"⟩ ∧
    (stop [] "t" (Except.ok ())).registry = [] ∧
    (stop [("t", freshSession)] "t" (Except.error ())).destroyCalls = 1 ∧
    List.lookup "t" (stop [("t", freshSession)] "t" (Except.error ())).registry = none ∧
    ("t", Status.OFFLINE) ∉
      listSessions (stop [("t", freshSession)] "t" (Except.error ())).registry ∧
    stop [("t", freshSession)] "t" (Except.error ()) =
      stop [("t", freshSession)] "t" (Except.ok ()) := by
  have hu := stop_idempotent_spec [] "t" (Except.ok ()) (Except.ok ())
  have hk := stop_idempotent_spec [("t", freshSession)] "t" (Except.error ()) (Except.ok ())
  exact ⟨hu.1, (hu.2.2.1 (by decide)).1, hk.2.2.2.1 (by simp),
    hk.2.2.2.2.1, hk.2.2.2.2.2 Status.OFFLINE, hk.2.1⟩

/-- C3: name resolution is idempotent and cached: resolving the same
identifier twice against the same cache issues at most one
`getContactById` query in total, both calls return the same value and
leave the same cache; and when the engine query fails the
`parseNumberFromWid` fallback is cached and returned, so later
resolutions return it without re-querying. -/
theorem resolveName_idempotent_cached (engine : Engine) (cache : NameCache)
    (wid : String) :
    (resolveName engine cache wid).queries +
      (resolveName engine (resolveName engine cache wid).cache wid).queries ≤ 1 ∧
    (resolveName engine (resolveName engine cache wid).cache wid).result =
      (resolveName engine cache wid).result ∧
    (resolveName engine (resolveName engine cache wid).cache wid).cache =
      (resolveName engine cache wid).cache ∧
    (wid ≠ "" → List.lookup wid cache = none → engine wid = Except.error () →
      (resolveName engine cache wid).result = some (parseNumberFromWid wid) ∧
      List.lookup wid (resolveName engine cache wid).cache =
        some (parseNumberFromWid wid)) := by
  by_cases hw : wid = ""
  · simp [resolveName, hw]
  · cases hc : List.lookup wid cache with
    | some n => simp [resolveName, hw, hc]
    | none =>
      cases he : engine wid with
      | ok c =>
        refine ⟨?_, ?_, ?_, fun _ _ herr => by simp [he] at herr⟩ <;>
          simp [resolveName, hw, hc, he, List.lookup_cons]
      | error e =>
        refine ⟨?_, ?_, ?_, fun _ _ _ => ?_⟩ <;>
          simp [resolveName, hw, hc, he, List.lookup_cons]

/-- Witness for C3: an engine that always rejects, an empty cache and
the identifier "5511999999999@c.us" yield the cached numeric
fallback. -/
theorem resolveName_idempotent_cached_witness :
    (resolveName (fun _ => Except.error ()) [] "5511999999999@c.us").result =
      some "5511999999999" ∧
    List.lookup "5511999999999@c.us"
        (resolveName (fun _ => Except.error ()) [] "5511999999999@c.us").cache =
      some "5511999999999" := by
  have h := resolveName_idempotent_cached (fun _ => Except.error ()) []
    "5511999999999@c.us"
  have h4 := h.2.2.2 (by decide) rfl rfl
  have hp : parseNumberFromWid "5511999999999@c.us" = "5511999999999" := by decide
  exact ⟨by rw [h4.1, hp], by rw [h4.2, hp]⟩

/-- C2: a disconnect event transitions the state to RECONNECTING and
performs exactly one re-initialization attempt; if the attempt fails
the state ends OFFLINE; if it succeeds the state stays RECONNECTING
and reaches ONLINE only once the engine re-emits ready; a later
disconnect is independently eligible for one new attempt, and no
handler ever makes more than one initialize call. -/
theorem disconnected_single_reinit (s : Session) :
    (handleEvent s (SEvent.disconnected InitResult.failure)).initCalls = 1 ∧
    (handleEvent s (SEvent.disconnected InitResult.success)).initCalls = 1 ∧
    (handleEvent s (SEvent.disconnected InitResult.failure)).session.status =
      Status.OFFLINE ∧
    (handleEvent s (SEvent.disconnected InitResult.success)).session.status =
      Status.RECONNECTING ∧
    (handleEvent (handleEvent s (SEvent.disconnected InitResult.success)).session
      SEvent.ready).session.status = Status.ONLINE ∧
    (∀ e, (handleEvent s e).initCalls ≤ 1) ∧
    (∀ r, (handleEvent
      (handleEvent s (SEvent.disconnected InitResult.failure)).session
      (SEvent.disconnected r)).initCalls = 1) ∧
    (∀ e, s.status ≠ Status.ONLINE →
      (handleEvent s e).session.status = Status.ONLINE → e = SEvent.ready) := by
  refine ⟨rfl, rfl, rfl, rfl, rfl, fun e => ?_, fun r => ?_, fun e hne hon => ?_⟩
  · cases e with
    | qr _ => simp [handleEvent]
    | ready => simp [handleEvent]
    | changeState _ => simp [handleEvent]
    | disconnected r => cases r <;> simp [handleEvent]
    | authFailure => simp [handleEvent]
    | initDone r => cases r <;> simp [handleEvent]
  · cases r <;> rfl
  · cases e with
    | qr _ => simp [handleEvent] at hon
    | ready => rfl
    | changeState _ => exact absurd hon hne
    | disconnected r => cases r <;> simp [handleEvent] at hon
    | authFailure => simp [handleEvent] at hon
    | initDone r =>
      cases r
      · exact absurd hon hne
      · simp [handleEvent] at hon

/-- Witness for C2: from a fresh session, a failed-reinit disconnect
makes one attempt and ends OFFLINE; a successful one leaves
RECONNECTING; and ready is the only event that brings a non-ONLINE
session ONLINE. -/
theorem disconnected_single_reinit_witness :
    (handleEvent freshSession (SEvent.disconnected InitResult.failure)).initCalls
      = 1 ∧
    (handleEvent freshSession
      (SEvent.disconnected InitResult.failure)).session.status = Status.OFFLINE ∧
    (handleEvent freshSession
      (SEvent.disconnected InitResult.success)).session.status =
      Status.RECONNECTING ∧
    SEvent.ready = SEvent.ready := by
  have h := disconnected_single_reinit freshSession
  exact ⟨h.1, h.2.2.1, h.2.2.2.1,
    h.2.2.2.2.2.2.2 SEvent.ready (by decide) (by decide)⟩

/-- Modelled from the spec: the transition edges listed in §3 —
OFFLINE→RECONNECTING (pairing token or disconnect),
RECONNECTING→ONLINE (ready), RECONNECTING→OFFLINE (re-init failure or
auth failure), ONLINE→RECONNECTING (disconnect). -/
def specEdges : List (Status × Status) :=
  [(.OFFLINE, .RECONNECTING), (.RECONNECTING, .ONLINE),
    (.RECONNECTING, .OFFLINE), (.ONLINE, .RECONNECTING)]

/-- The listed edges plus the two further distinct-state transitions
the unguarded handlers perform: OFFLINE→ONLINE (ready delivered while
OFFLINE, e.g. a restored session that resumes without a new pairing
token) and ONLINE→OFFLINE (auth failure or a failed initialization
delivered while ONLINE). -/
def amendedEdges : List (Status × Status) :=
  specEdges ++ [(.OFFLINE, .ONLINE), (.ONLINE, .OFFLINE)]

/-- The successive states a frame list records (one status frame per
`setStatus` call, so this is the session's status write trace). -/
def statusTrace (frames : List Frame) : List Status :=
  frames.filterMap (fun f => match f with | .status st => some st | _ => none)

/-- Every successive pair of states along a trace is a self-loop or an
edge of `edges`. -/
def chainOk (edges : List (Status × Status)) : Status → List Status → Bool
  | _, [] => true
  | cur, st :: rest => (cur == st || edges.contains (cur, st)) && chainOk edges st rest

/-- The status writes each connection event performs; the handlers
never consult the current state. -/
def eventStatusWrites : SEvent → List Status
  | .qr _ => [.RECONNECTING]
  | .ready => [.ONLINE]
  | .changeState _ => []
  | .disconnected .success => [.RECONNECTING]
  | .disconnected .failure => [.RECONNECTING, .OFFLINE]
  | .authFailure => [.OFFLINE]
  | .initDone .success => []
  | .initDone .failure => [.OFFLINE]

/-- C8 counterexample: a ready event delivered to an OFFLINE session —
the normal resume path of an already-paired session — changes the
state OFFLINE→ONLINE, a distinct-state transition that is not among
the listed edges. -/
theorem transition_edges_counterexample :
    (handleEvent freshSession SEvent.ready).session.status = Status.ONLINE ∧
    freshSession.status = Status.OFFLINE ∧
    Status.OFFLINE ≠ Status.ONLINE ∧
    (Status.OFFLINE, Status.ONLINE) ∉ specEdges := by
  decide

/-- C8 amended: each handler writes a fixed status sequence that does
not depend on the current state; every change of state follows a
listed edge or one of the two additional edges OFFLINE→ONLINE (ready
while offline) and ONLINE→OFFLINE (auth/init failure while online);
the final state is the last status written, or unchanged when none
is. -/
theorem transition_edges_amended (s : Session) (e : SEvent) :
    statusTrace (handleEvent s e).frames = eventStatusWrites e ∧
    (handleEvent s e).session.status =
      (statusTrace (handleEvent s e).frames).getLastD s.status ∧
    chainOk amendedEdges s.status (statusTrace (handleEvent s e).frames) = true := by
  obtain ⟨st, sqr, slis, snc⟩ := s
  cases e with
  | qr token =>
    cases st <;>
      simp [handleEvent, statusTrace, eventStatusWrites, chainOk, amendedEdges,
        specEdges, List.getLastD]
  | ready =>
    cases st <;>
      simp [handleEvent, statusTrace, eventStatusWrites, chainOk, amendedEdges,
        specEdges, List.getLastD]
  | changeState es =>
    cases st <;>
      simp [handleEvent, statusTrace, eventStatusWrites, chainOk, amendedEdges,
        specEdges, List.getLastD]
  | disconnected r =>
    cases r <;> cases st <;>
      simp [handleEvent, statusTrace, eventStatusWrites, chainOk, amendedEdges,
        specEdges, List.getLastD]
  | authFailure =>
    cases st <;>
      simp [handleEvent, statusTrace, eventStatusWrites, chainOk, amendedEdges,
        specEdges, List.getLastD]
  | initDone r =>
    cases r <;> cases st <;>
      simp [handleEvent, statusTrace, eventStatusWrites, chainOk, amendedEdges,
        specEdges, List.getLastD]

/-- `seenBy` splits over concatenated write sequences. -/
theorem seenBy_append (sub : Nat) (xs ys : List (Nat × Frame)) :
    seenBy sub (xs ++ ys) = seenBy sub xs ++ seenBy sub ys := by
  simp [seenBy, List.filter_append]

/-- One `sseBroadcast` writes the payload to a subscriber once per
occurrence in the listener set. -/
theorem seenBy_broadcast (L : List Nat) (sub : Nat) (f : Frame) :
    seenBy sub (L.map (fun r => (r, f))) = List.replicate (L.count sub) f := by
  induction L with
  | nil => rfl
  | cons a L ih =>
    by_cases ha : a = sub
    · simp only [List.map_cons, seenBy, List.filter_cons] at ih ⊢
      simp [ha, List.count_cons, List.replicate_succ, ih]
    · simp only [List.map_cons, seenBy, List.filter_cons] at ih ⊢
      simp [ha, List.count_cons, ih]

/-- A subscriber appearing once in the listener set receives every
broadcast frame, in broadcast order. -/
theorem seenBy_fanOut (L : List Nat) (sub : Nat) (frames : List Frame)
    (hmem : sub ∈ L) (hnd : L.Nodup) :
    seenBy sub (fanOut L frames) = frames := by
  induction frames with
  | nil => rfl
  | cons f fs ih =>
    rw [fanOut, List.flatMap_cons, seenBy_append, seenBy_broadcast,
      List.count_eq_one_of_mem hnd hmem]
    rw [fanOut] at ih
    rw [ih]
    rfl

/-- C6 counterexample: on a pairing-token event the status frame is
broadcast before the qr frame, not after it as the claim orders
them. -/
theorem qr_frame_order_counterexample :
    (handleEvent freshSession (SEvent.qr "XYZ")).frames ≠
      [Frame.qr "XYZ", Frame.status Status.RECONNECTING] ∧
    (handleEvent freshSession (SEvent.qr "XYZ")).frames =
      [Frame.status Status.RECONNECTING, Frame.qr "XYZ"] := by
  exact ⟨by decide, rfl⟩

/-- C6 amended: a pairing-token event stores the token, transitions
the state to RECONNECTING, and fans out to every current subscriber
the status frame for RECONNECTING followed by the qr frame carrying
the token — both in the same synchronous handler, so every subscriber
sees the state transition of the same pairing round. -/
theorem qr_event_status_then_qr (s : Session) (token : String)
    (L : List Nat) (sub : Nat) (hmem : sub ∈ L) (hnd : L.Nodup) :
    (handleEvent s (SEvent.qr token)).session.qr = some token ∧
    (handleEvent s (SEvent.qr token)).session.status = Status.RECONNECTING ∧
    (handleEvent s (SEvent.qr token)).frames =
      [Frame.status Status.RECONNECTING, Frame.qr token] ∧
    seenBy sub (fanOut L (handleEvent s (SEvent.qr token)).frames) =
      [Frame.status Status.RECONNECTING, Frame.qr token] := by
  exact ⟨rfl, rfl, rfl, seenBy_fanOut L sub _ hmem hnd⟩

/-- Witness for C6: the lone subscriber 0 receives the RECONNECTING
status frame and then the qr frame for token "XYZ". -/
theorem qr_event_status_then_qr_witness :
    seenBy 0 (fanOut [0] (handleEvent freshSession (SEvent.qr "XYZ")).frames) =
      [Frame.status Status.RECONNECTING, Frame.qr "XYZ"] :=
  (qr_event_status_then_qr freshSession "XYZ" [0] 0 (by decide) (by decide)).2.2.2

/-- C10 counterexample: a stored pairing token that is non-null but
empty — `s.qr = some ""` — is falsy, so the snapshot written to a new
subscriber carries no qr frame even though the session holds a
non-null token. -/
theorem stream_snapshot_counterexample :
    ({ freshSession with qr := some "" } : Session).qr ≠ none ∧
    (streamConnect [("t", { freshSession with qr := some "" })] "t" 0).initialFrames
      = [Frame.status Status.OFFLINE] := by
  exact ⟨by decide, rfl⟩

/-- C10 amended: every newly added stream subscriber immediately
receives exactly one status frame carrying the session's current
state, first, followed by one qr frame carrying the stored pairing
token exactly when the session holds a truthy (non-null, non-empty)
token. -/
theorem stream_snapshot_spec (reg : Registry) (t : String) (sub : Nat) :
    (streamConnect reg t sub).initialFrames.head? =
      some (Frame.status (getOrCreateSession reg t).session.status) ∧
    (streamConnect reg t sub).initialFrames.countP Frame.isStatus = 1 ∧
    ((getOrCreateSession reg t).session.qr = none →
      (streamConnect reg t sub).initialFrames =
        [Frame.status (getOrCreateSession reg t).session.status]) ∧
    (∀ q, (getOrCreateSession reg t).session.qr = some q → q ≠ "" →
      (streamConnect reg t sub).initialFrames =
        [Frame.status (getOrCreateSession reg t).session.status, Frame.qr q]) ∧
    ((getOrCreateSession reg t).session.qr = some "" →
      (streamConnect reg t sub).initialFrames =
        [Frame.status (getOrCreateSession reg t).session.status]) := by
  cases hq : (getOrCreateSession reg t).session.qr with
  | none =>
    refine ⟨?_, ?_, fun _ => ?_, fun q hsome => by simp at hsome,
      fun habs => by simp at habs⟩ <;>
      simp [streamConnect, truthyStr, hq, Frame.isStatus]
  | some q =>
    by_cases hqe : q = ""
    · subst hqe
      refine ⟨?_, ?_, fun habs => by simp at habs,
        fun q2 hsome hne => absurd (by simpa using hsome.symm) hne,
        fun _ => ?_⟩ <;>
        simp [streamConnect, truthyStr, hq, Frame.isStatus]
    · refine ⟨?_, ?_, fun habs => by simp at habs, fun q2 hsome hne => ?_,
        fun habs => absurd (by simpa using habs) hqe⟩
      · simp [streamConnect, truthyStr, hq, hqe, Frame.isStatus]
      · simp [streamConnect, truthyStr, hq, hqe, Frame.isStatus]
      · obtain rfl : q = q2 := by simpa using hsome
        simp [streamConnect, truthyStr, hq, hqe]

/-- Witness for C10: a session for "t" holding token "XYZ" in state
OFFLINE snapshots as the OFFLINE status frame then the qr frame. -/
theorem stream_snapshot_spec_witness :
    (streamConnect [("t", { freshSession with qr := some "XYZ" })] "t" 0).initialFrames
      = [Frame.status Status.OFFLINE, Frame.qr "XYZ"] :=
  (stream_snapshot_spec [("t", { freshSession with qr := some "XYZ" })] "t" 0).2.2.2.1
    "XYZ" (by decide) (by decide)

/-- A truthy nullable string is non-empty. -/
theorem truthyStr_ne_empty {o : Option String} {a : String}
    (h : truthyStr o = some a) : a ≠ "" := by
  cases o with
  | none => simp [truthyStr] at h
  | some s =>
    by_cases hs : s = ""
    · simp [truthyStr, hs] at h
    · rw [truthyStr, if_neg hs] at h
      obtain rfl : s = a := by simpa using h
      exact hs

/-- C4: every incoming-message event produces a message frame even
when enrichment fails — a thrown enrichment falls back to the
unenriched base DTO rather than dropping the event; and when the
author id has no cached name and the contact lookup rejects, the
emitted DTO is the base DTO with `authorName` set to the numeric
fallback derived from the author id. -/
theorem message_fanout_fallback (engine : Engine) (msg : Msg) (cache : NameCache) :
    (∀ r, (clientMessageHandler r msg).isMessage = true) ∧
    (∀ err, clientMessageHandler (Except.error err) msg =
      Frame.message (baseMessageDTO msg)) ∧
    (∀ a, truthyStr msg.author = some a → List.lookup a cache = none →
      engine a = Except.error () →
      (enrichMessageDTO engine msg cache).dto =
        { baseMessageDTO msg with
          authorName := some (some (parseNumberFromWid a)) } ∧
      clientMessageHandler (Except.ok (enrichMessageDTO engine msg cache).dto) msg =
        Frame.message { baseMessageDTO msg with
          authorName := some (some (parseNumberFromWid a)) }) := by
  refine ⟨fun r => ?_, fun err => rfl, fun a hsome hlk herr => ?_⟩
  · cases r <;> rfl
  · have ha : a ≠ "" := truthyStr_ne_empty hsome
    have hauthor : (baseMessageDTO msg).author = msg.author := rfl
    have hdto : (enrichMessageDTO engine msg cache).dto =
        { baseMessageDTO msg with
          authorName := some (some (parseNumberFromWid a)) } := by
      rw [enrichMessageDTO]
      rw [hauthor, hsome]
      simp [resolveName, ha, hlk, herr, hauthor]
    exact ⟨hdto, by rw [hdto]; rfl⟩

/-- A concrete group message from an author with no cached name. -/
def msgW : Msg :=
  { id := .obj "m1", from_ := "g1@g.us", to_ := "me@c.us", fromMe := false,
    body := "hi", type := "chat", hasMedia := false, mimetype := none,
    filename := none, size := none, ack := some 1, timestamp := some 5,
    hasQuotedMsg := false, quotedMsgId := none,
    author := some "5511999999999@c.us" }

/-- Witness for C4: with an always-rejecting engine and an empty
cache, the emitted DTO is the base DTO of `msgW` with `authorName`
the numeric fallback "5511999999999". -/
theorem message_fanout_fallback_witness :
    (enrichMessageDTO (fun _ => Except.error ()) msgW []).dto =
      { baseMessageDTO msgW with authorName := some (some "5511999999999") } ∧
    clientMessageHandler
        (Except.ok (enrichMessageDTO (fun _ => Except.error ()) msgW []).dto) msgW =
      Frame.message
        { baseMessageDTO msgW with authorName := some (some "5511999999999") } := by
  have h := (message_fanout_fallback (fun _ => Except.error ()) msgW []).2.2
    "5511999999999@c.us" (by decide) rfl rfl
  have hp : parseNumberFromWid "5511999999999@c.us" = "5511999999999" := by decide
  constructor
  · rw [h.1, hp]
  · rw [h.2, hp]

end WaQr
